import Mathlib

/-!
Shallow embedding of the queueing waypoint planner
(`src/pedsim_simulator/src/waypointplanner/queueingplanner.cpp`) and of the
agent-cluster spawner (`AgentCluster::dissolve`).

Modelling conventions:
* 2D coordinates (`Ped::Tvector`) are rational pairs; the source's Euclidean
  length comparisons `diff.length() <= r` / `< r` (with `r > 0`) are embedded
  as squared-length comparisons `diff.sqLength ≤ r²` / `< r²`, which are
  equivalent and keep every predicate decidable.
* Qt signal/slot wiring is embedded as two boolean subscription flags:
  `subQueue` (the pair of connections to the waiting queue's `agentMayPass`
  and `queueEndPositionChanged` signals, always connected/disconnected
  together in the source) and `subFollowed` (the connection to the followed
  agent's `positionChanged` signal).  An event is delivered to its handler
  exactly when the corresponding flag is set.
* `WaitingQueue` is an external collaborator; the planner reads its anchor
  position (`getPosition`), end position, direction and emptiness, and makes
  one mutating call, `enqueueAgent`, whose result (the agent ahead, or none)
  is embedded as the snapshot field `enqueueResult`.
* `enqueueCount` is ghost instrumentation counting calls to the queue's
  `enqueueAgent`; no planner code reads it.
* Branches the C++ reaches only through a null-pointer dereference
  (undefined behaviour) are embedded as leaving the state unchanged; they are
  marked below and no claim depends on them.
-/

namespace Pedsim

/-- The type `Ped::Tvector` restricted to the planar operations the planner uses. -/
structure Tvector where
  x : ℚ
  y : ℚ
deriving DecidableEq, Repr

/-- Componentwise subtraction, `Ped::Tvector::operator-`. -/
def Tvector.sub (a b : Tvector) : Tvector := ⟨a.x - b.x, a.y - b.y⟩

instance : Sub Tvector := ⟨Tvector.sub⟩

lemma Tvector.sub_def (a b : Tvector) :
    a - b = ⟨a.x - b.x, a.y - b.y⟩ := rfl

/-- Squared Euclidean length.  The source compares `length()` against a
positive constant `r`; here the comparison is against `r²`. -/
def Tvector.sqLength (v : Tvector) : ℚ := v.x * v.x + v.y * v.y

/-- An agent, as seen by the planner: identifier, position, and the set of
steering forces disabled via `disableForce` (appended in call order). -/
structure Agent where
  id : Int
  position : Tvector
  disabledForces : List String
deriving DecidableEq, Repr

/-- Source `Agent::disableForce(name)`. -/
def Agent.disableForce (a : Agent) (f : String) : Agent :=
  { a with disabledForces := a.disabledForces ++ [f] }

/-- A waiting queue, as read by the planner.  `position` is the queue's
anchor (`WaitingQueue::getPosition`), `direction` the unit vector of its
facing direction (`getDirection` as a `Tangle`), and `enqueueResult` the
agent ahead that `enqueueAgent` returns (none when the caller becomes the
head). -/
structure WaitingQueue where
  name : String
  position : Tvector
  queueEndPosition : Tvector
  direction : Tvector
  isEmpty : Bool
  enqueueResult : Option Agent
deriving DecidableEq, Repr

/-- A `QueueingWaypoint`: a named destination with a mutable position. -/
structure QueueingWaypoint where
  name : String
  position : Tvector
deriving DecidableEq, Repr

/-- The planner's phase, `QueueingWaypointPlanner::WaypointPlannerStatus`. -/
inductive Status
  | Unknown
  | Approaching
  | Queued
  | MayPass
deriving DecidableEq, Repr

/-- The mutable state of a `QueueingWaypointPlanner`, including the live
signal connections (`subQueue`, `subFollowed`) and the ghost `enqueueCount`. -/
structure Planner where
  agent : Option Agent
  waitingQueue : Option WaitingQueue
  currentWaypoint : Option QueueingWaypoint
  followedAgent : Option Agent
  status : Status
  subQueue : Bool
  subFollowed : Bool
  enqueueCount : Nat
deriving DecidableEq, Repr

/-- The constructor `QueueingWaypointPlanner::QueueingWaypointPlanner`. -/
def initialPlanner : Planner :=
  { agent := none, waitingQueue := none, currentWaypoint := none,
    followedAgent := none, status := .Unknown,
    subQueue := false, subFollowed := false, enqueueCount := 0 }

/-- Source `addPrivateSpace`: subtract a displacement of magnitude 0.7 along the
queue's direction (`Tvector::fromPolar(direction, 0.7)`). -/
def addPrivateSpace (q : WaitingQueue) (p : Tvector) : Tvector :=
  ⟨p.x - (7/10) * q.direction.x, p.y - (7/10) * q.direction.y⟩

/-- Source `createWaypointName`: `"QueueHelper_A%1_Q%2"` with the agent id and the
queue name. -/
def createWaypointName (a : Agent) (q : WaitingQueue) : String :=
  "QueueHelper_A" ++ toString a.id ++ "_Q" ++ q.name

/-- Source `hasReachedQueueEnd`: distance from the agent to the queue's end is
at most the arrival radius 2.0 (embedded as squared length ≤ 4).  The
source dereferences `agent` unconditionally after the queue check; the
`agent = none` case (undefined behaviour in C++, guarded by every supported
caller) is embedded as `false`. -/
def hasReachedQueueEnd (s : Planner) : Bool :=
  match s.waitingQueue with
  | none => false
  | some q =>
    match s.agent with
    | none => false
    | some a => decide ((q.queueEndPosition - a.position).sqLength ≤ 4)

/-- Source `onFollowedAgentPositionChanged(x, y)`: ignore if no waypoint; otherwise
offset the reported position by the personal space and update the waypoint
unless the change is below the 0.4 hysteresis threshold (squared: 4/25).
The `waitingQueue = none` case would dereference null in `addPrivateSpace`
(unreachable while the `positionChanged` connection is live). -/
def onFollowedAgentPositionChanged (xIn yIn : ℚ) (s : Planner) : Planner :=
  match s.currentWaypoint with
  | none => s
  | some wp =>
    match s.waitingQueue with
    | none => s
    | some q =>
      let followedPosition := addPrivateSpace q ⟨xIn, yIn⟩
      let diff := followedPosition - wp.position
      if diff.sqLength < 4/25 then s
      else { s with currentWaypoint := some { wp with position := followedPosition } }

/-- Source `onFollowedAgentLeftQueue`: disconnect from the followed agent and snap
the waypoint to the queue's anchor (`waitingQueue->getPosition()`).  The
source dereferences `waitingQueue` and `currentWaypoint`; the null cases
(undefined behaviour) keep the remaining state. -/
def onFollowedAgentLeftQueue (s : Planner) : Planner :=
  let s1 := { s with subFollowed := false }
  match s1.waitingQueue, s1.currentWaypoint with
  | some q, some wp =>
    { s1 with currentWaypoint := some { wp with position := q.position } }
  | _, _ => s1

/-- Source `onAgentMayPassQueue(id)`: own id ⇒ `MayPass` and disconnect from the
queue's two signals; followed agent's id ⇒ `onFollowedAgentLeftQueue`;
otherwise nothing. -/
def onAgentMayPassQueue (idIn : Int) (s : Planner) : Planner :=
  if (match s.agent with | some a => idIn == a.id | none => false) then
    { s with status := .MayPass, subQueue := false }
  else if (match s.followedAgent with | some f => idIn == f.id | none => false) then
    onFollowedAgentLeftQueue s
  else s

/-- Source `activateQueueingMode`: set `Queued`, call the queue's `enqueueAgent`
(ghost-counted), bind and subscribe to the returned agent ahead if any,
disable the four problematic forces, and replace the waypoint with one at
the followed agent's offset position (or the queue's anchor).  Callers
guard `agent` and `waitingQueue`; the null cases keep the state. -/
def activateQueueingMode (s : Planner) : Planner :=
  match s.waitingQueue, s.agent with
  | some q, some a =>
    let waypointName := createWaypointName a q
    let a2 := ((((a.disableForce "Social").disableForce "Random").disableForce
        "GroupCoherence").disableForce "GroupGaze")
    match q.enqueueResult with
    | some f =>
      { s with status := .Queued,
               enqueueCount := s.enqueueCount + 1,
               followedAgent := some f,
               subFollowed := true,
               agent := some a2,
               currentWaypoint := some ⟨waypointName, addPrivateSpace q f.position⟩ }
    | none =>
      { s with status := .Queued,
               enqueueCount := s.enqueueCount + 1,
               followedAgent := none,
               agent := some a2,
               currentWaypoint := some ⟨waypointName, q.position⟩ }
  | _, _ => s

/-- Source `activateApproachingMode`: set `Approaching` and replace the waypoint
with one at the queue's end position (no personal-space offset here).
Callers guard `agent` and `waitingQueue`. -/
def activateApproachingMode (s : Planner) : Planner :=
  match s.waitingQueue, s.agent with
  | some q, some a =>
    { s with status := .Approaching,
             currentWaypoint := some ⟨createWaypointName a q, q.queueEndPosition⟩ }
  | _, _ => s

/-- Source `onQueueEndPositionChanged(x, y)`: ignored unless `Approaching`; switch
to queueing mode when within the arrival radius; otherwise move the
waypoint to the new end position, offset by personal space only when the
queue is non-empty. -/
def onQueueEndPositionChanged (xIn yIn : ℚ) (s : Planner) : Planner :=
  if s.status = Status.Approaching then
    if hasReachedQueueEnd s then activateQueueingMode s
    else
      match s.currentWaypoint with
      | none => s
      | some wp =>
        match s.waitingQueue with
        | none => s
        | some q =>
          let newDestination : Tvector := ⟨xIn, yIn⟩
          let newDestination :=
            if q.isEmpty then newDestination else addPrivateSpace q newDestination
          { s with currentWaypoint := some { wp with position := newDestination } }
  else s

/-- Source `reset`: disconnect everything, drop the waypoint and the followed
agent, return to `Unknown`. -/
def reset (s : Planner) : Planner :=
  { s with subFollowed := false, subQueue := false,
           status := .Unknown, currentWaypoint := none, followedAgent := none }

/-- Source `setAgent(agent)`. -/
def setAgent (a : Option Agent) (s : Planner) : Planner :=
  { s with agent := a }

/-- Source `setWaitingQueue(queue)`: reset, record the queue and, if non-null,
enter `Approaching` and connect to the queue's two signals. -/
def setWaitingQueue (q : Option WaitingQueue) (s : Planner) : Planner :=
  let s1 := reset s
  let s2 := { s1 with waitingQueue := q }
  match q with
  | some _ => { s2 with status := .Approaching, subQueue := true }
  | none => s2

/-- The `Waypoint*` argument of `setDestination`: either an actual waiting
queue (the successful `dynamic_cast`), some other waypoint, or null. -/
inductive WaypointArg
  | queue (q : WaitingQueue)
  | plain (name : String) (position : Tvector)
  | null
deriving DecidableEq, Repr

/-- Source `setDestination(waypoint)`: a failed `dynamic_cast<WaitingQueue*>` logs
an error and returns without touching any state. -/
def setDestination (w : WaypointArg) (s : Planner) : Planner :=
  match w with
  | .queue q => setWaitingQueue (some q) s
  | .plain _ _ => s
  | .null => s

/-- Source `hasCompletedWaypoint`: true without a waypoint; true when
`Approaching` within the arrival radius; true when `MayPass`.  A `const`
method: it performs no transition. -/
def hasCompletedWaypoint (s : Planner) : Bool :=
  match s.currentWaypoint with
  | none => true
  | some _ =>
    if s.status = Status.Approaching ∧ hasReachedQueueEnd s = true then true
    else decide (s.status = Status.MayPass)

/-- The call `hasCompletedWaypoint()` as an operation: returns the flag and
leaves the planner untouched (the method is `const` and calls no
transition). -/
def hasCompletedWaypointCall (s : Planner) : Bool × Planner :=
  (hasCompletedWaypoint s, s)

/-- Source `getNextWaypoint`: null without an agent or queue (state untouched);
otherwise activate queueing or approaching mode depending on
`hasReachedQueueEnd` and return the fresh waypoint. -/
def getNextWaypoint (s : Planner) : Option QueueingWaypoint × Planner :=
  match s.agent with
  | none => (none, s)
  | some _ =>
    match s.waitingQueue with
    | none => (none, s)
    | some _ =>
      let s1 := if hasReachedQueueEnd s then activateQueueingMode s
                else activateApproachingMode s
      (s1.currentWaypoint, s1)

/-- Source `getCurrentWaypoint`: when the current waypoint is completed, assign
`currentWaypoint = getNextWaypoint()` (possibly null), then return it. -/
def getCurrentWaypoint (s : Planner) : Option QueueingWaypoint × Planner :=
  if hasCompletedWaypoint s then
    let r := getNextWaypoint s
    let s2 := { r.2 with currentWaypoint := r.1 }
    (s2.currentWaypoint, s2)
  else (s.currentWaypoint, s)

/-- Source `hasCompletedDestination`: true without a queue; else `MayPass`. -/
def hasCompletedDestination (s : Planner) : Bool :=
  match s.waitingQueue with
  | none => true
  | some _ => decide (s.status = Status.MayPass)

/-- The asynchronous events pushed into the planner: the queue's
`agentMayPass(id)` and `queueEndPositionChanged(x, y)` signals and the
followed agent's `positionChanged(x, y)` signal. -/
inductive Event
  | agentMayPass (id : Int)
  | queueEndPositionChanged (x y : ℚ)
  | followedPositionChanged (x y : ℚ)
deriving DecidableEq, Repr

/-- Qt signal delivery: a slot runs exactly when the connection is live. -/
def dispatch (e : Event) (s : Planner) : Planner :=
  match e with
  | .agentMayPass i => if s.subQueue then onAgentMayPassQueue i s else s
  | .queueEndPositionChanged x y =>
      if s.subQueue then onQueueEndPositionChanged x y s else s
  | .followedPositionChanged x y =>
      if s.subFollowed then onFollowedAgentPositionChanged x y s else s

/-- Every externally invokable operation on the planner. -/
inductive Op
  | setAgent (a : Option Agent)
  | setDestination (w : WaypointArg)
  | setWaitingQueue (q : Option WaitingQueue)
  | getCurrentWaypoint
  | getNextWaypoint
  | hasCompletedWaypoint
  | reset
  | deliver (e : Event)
deriving DecidableEq, Repr

/-- State after one operation. -/
def step (s : Planner) (op : Op) : Planner :=
  match op with
  | .setAgent a => setAgent a s
  | .setDestination w => setDestination w s
  | .setWaitingQueue q => setWaitingQueue q s
  | .getCurrentWaypoint => (getCurrentWaypoint s).2
  | .getNextWaypoint => (getNextWaypoint s).2
  | .hasCompletedWaypoint => (hasCompletedWaypointCall s).2
  | .reset => reset s
  | .deliver e => dispatch e s

/-- State after a sequence of operations from the constructor. -/
def run (ops : List Op) : Planner := ops.foldl step initialPlanner

/-- States reachable from the freshly constructed planner. -/
inductive Reachable : Planner → Prop
  | init : Reachable initialPlanner
  | step {s : Planner} (op : Op) : Reachable s → Reachable (step s op)

/-! ## The agent-cluster spawner (`AgentCluster`, `src/unnamed/part_000`) -/

/-- A `QSizeF`: the spatial distribution of a cluster. -/
structure SizeF where
  width : ℚ
  height : ℚ
deriving DecidableEq, Repr

/-- An agent as initialized by `AgentCluster::dissolve`: position, type and
waypoint list (waypoints are external `Waypoint*` references, embedded by
identity). -/
structure ClusterAgent where
  position : Tvector
  agentType : Int
  waypoints : List Nat
deriving DecidableEq, Repr

/-- The state of an `AgentCluster` read by `dissolve`. -/
structure AgentCluster where
  id : Int
  position : Tvector
  count : Int
  distribution : SizeF
  agentType : Int
  waypoints : List Nat
deriving DecidableEq, Repr

/-- Source `AgentCluster::dissolve`: create `count` agents at the cluster's
position; when the distribution width (resp. height) is non-zero, add the
i-th draw of `randomX` (resp. `randomY`), which embeds the i-th sample of the
source's `uniform_real_distribution`; copy the agent type and the waypoint
list in order. -/
def AgentCluster.dissolve (c : AgentCluster) (randomX randomY : Nat → ℚ) :
    List ClusterAgent :=
  (List.range c.count.toNat).map (fun i =>
    { position := ⟨c.position.x + (if c.distribution.width ≠ 0 then randomX i else 0),
                   c.position.y + (if c.distribution.height ≠ 0 then randomY i else 0)⟩,
      agentType := c.agentType,
      waypoints := c.waypoints })

/-! ## Concrete fixtures used by witnesses and counterexamples -/

/-- The controlled agent of §8's example: id 1, standing at (0, 10.5). -/
def agentA : Agent := ⟨1, ⟨0, 21/2⟩, []⟩

/-- An agent ahead in the queue: id 2 at (0, 5). -/
def agentB : Agent := ⟨2, ⟨0, 5⟩, []⟩

/-- The empty queue of §8's example: anchor (0,0), end (0,10),
orientation (0,−1); `enqueueAgent` returns no agent ahead. -/
def emptyQueue : WaitingQueue := ⟨"q", ⟨0, 0⟩, ⟨0, 10⟩, ⟨0, -1⟩, true, none⟩

/-- A non-empty queue whose `enqueueAgent` returns `agentB` as the agent
ahead. -/
def busyQueue : WaitingQueue := ⟨"q", ⟨0, 0⟩, ⟨0, 10⟩, ⟨0, -1⟩, false, some agentB⟩

/-- A planner with `agentA` bound and `agentB` followed, used to exercise the
frame condition of `onAgentMayPassQueue`. -/
def frameState : Planner :=
  { initialPlanner with agent := some agentA, followedAgent := some agentB }

/-- An agent far away from the queue end: id 3 at (0, 100). -/
def agentFar : Agent := ⟨3, ⟨0, 100⟩, []⟩

/-- The waypoint the queued fixture tracks: 0.7 behind `agentB`. -/
def waypointW : QueueingWaypoint := ⟨"w", ⟨0, 57/10⟩⟩

/-- A planner in `Queued` phase following `agentB` in `busyQueue`, with both
subscriptions live. -/
def queuedState : Planner :=
  { agent := some agentA, waitingQueue := some busyQueue,
    currentWaypoint := some waypointW, followedAgent := some agentB,
    status := .Queued, subQueue := true, subFollowed := true, enqueueCount := 1 }

/-- A planner in `Approaching` phase with `agentA` within the arrival radius
of `emptyQueue`'s end. -/
def approachState : Planner :=
  { agent := some agentA, waitingQueue := some emptyQueue,
    currentWaypoint := some ⟨"w", ⟨0, 10⟩⟩, followedAgent := none,
    status := .Approaching, subQueue := true, subFollowed := false, enqueueCount := 0 }

/-! ## Theorems -/

/-- C8: for every destination argument that is not a waiting queue (a failed
`dynamic_cast<WaitingQueue*>`, including null), `setDestination` leaves the
planner — queue, phase, target, followed agent, subscriptions — exactly as
before the call (only a diagnostic is emitted). -/
theorem C8_setDestination_noop (w : WaypointArg) (s : Planner)
    (h : ∀ q : WaitingQueue, w ≠ WaypointArg.queue q) :
    setDestination w s = s := by
  cases w with
  | queue q => exact absurd rfl (h q)
  | plain n p => rfl
  | null => rfl

/-- Witness for C8: a null destination leaves the fresh planner unchanged. -/
theorem C8_witness : setDestination WaypointArg.null initialPlanner = initialPlanner :=
  C8_setDestination_noop WaypointArg.null initialPlanner
    (fun _ h => WaypointArg.noConfusion h)

/-- C9: a pass-permission event whose id matches neither the controlled
agent's id (or no agent is bound) nor the followed agent's id (or no
followed agent is bound) leaves every field of the planner unchanged. -/
theorem C9_mayPass_frame (idIn : Int) (s : Planner)
    (hA : ∀ a : Agent, s.agent = some a → idIn ≠ a.id)
    (hF : ∀ f : Agent, s.followedAgent = some f → idIn ≠ f.id) :
    onAgentMayPassQueue idIn s = s := by
  cases hAg : s.agent with
  | none =>
    cases hFo : s.followedAgent with
    | none => simp [onAgentMayPassQueue, hAg, hFo]
    | some f => simp [onAgentMayPassQueue, hAg, hFo, hF f hFo]
  | some a =>
    cases hFo : s.followedAgent with
    | none => simp [onAgentMayPassQueue, hAg, hFo, hA a hAg]
    | some f => simp [onAgentMayPassQueue, hAg, hFo, hA a hAg, hF f hFo]

/-- Witness for C9: id 5 matches neither agent 1 nor followed agent 2. -/
theorem C9_witness : onAgentMayPassQueue 5 frameState = frameState := by
  apply C9_mayPass_frame
  · intro a ha
    have h2 : agentA = a := Option.some.inj ha
    rw [← h2]
    decide
  · intro f hf
    have h2 : agentB = f := Option.some.inj hf
    rw [← h2]
    decide

/-- Counterexample to C1: with the queue assigned, the planner `Approaching`
and the agent within the arrival radius (distance 0.5 ≤ 2.0), a
`hasCompletedWaypoint()` call reports completion but performs no transition
and calls no enqueue — the method is `const`; the phase stays `Approaching`
and the enqueue count stays 0, contradicting the claim that this query
transitions to `Queued`. -/
theorem C1_counterexample :
    hasReachedQueueEnd approachState = true ∧
    approachState.status = Status.Approaching ∧
    hasCompletedWaypoint approachState = true ∧
    (step approachState Op.hasCompletedWaypoint).status ≠ Status.Queued ∧
    (step approachState Op.hasCompletedWaypoint).enqueueCount = 0 := by
  have hr : hasReachedQueueEnd approachState = true := by
    norm_num [hasReachedQueueEnd, approachState, agentA, emptyQueue, Tvector.sqLength, Tvector.sub_def]
  refine ⟨hr, rfl, ?_, ?_, rfl⟩
  · have hwp : approachState.currentWaypoint = some ⟨"w", ⟨0, 10⟩⟩ := rfl
    have hst : approachState.status = Status.Approaching := rfl
    simp [hasCompletedWaypoint, hwp, hst, hr]
  · intro hcontra
    exact absurd hcontra (by decide)

/-- C1 (amended): if the agent's distance to the queue's end is ≤ 2.0 while
`Approaching` with agent and queue assigned, `hasCompletedWaypoint()`
reports true without transitioning, and the very next `getCurrentWaypoint()`
call transitions the phase to `Queued`, invoking the queue's enqueue exactly
once; calling `getCurrentWaypoint()` again without intervening movement
changes nothing (in particular it does not enqueue a second time). -/
theorem C1_amended_nextQuery (s : Planner) (a : Agent) (q : WaitingQueue)
    (ha : s.agent = some a) (hq : s.waitingQueue = some q)
    (hst : s.status = Status.Approaching)
    (hr : hasReachedQueueEnd s = true) :
    hasCompletedWaypoint s = true ∧
    hasCompletedWaypointCall s = (true, s) ∧
    (getCurrentWaypoint s).2.status = Status.Queued ∧
    (getCurrentWaypoint s).2.enqueueCount = s.enqueueCount + 1 ∧
    getCurrentWaypoint ((getCurrentWaypoint s).2) =
      ((getCurrentWaypoint s).2.currentWaypoint, (getCurrentWaypoint s).2) := by
  have hc : hasCompletedWaypoint s = true := by
    cases hwp : s.currentWaypoint with
    | none => simp [hasCompletedWaypoint, hwp]
    | some wp => simp [hasCompletedWaypoint, hwp, hst, hr]
  have hgc : getCurrentWaypoint s =
      ((activateQueueingMode s).currentWaypoint, activateQueueingMode s) := by
    simp [getCurrentWaypoint, hc, getNextWaypoint, ha, hq, hr]
  have hact : (activateQueueingMode s).status = Status.Queued ∧
      (activateQueueingMode s).enqueueCount = s.enqueueCount + 1 ∧
      hasCompletedWaypoint (activateQueueingMode s) = false := by
    cases henq : q.enqueueResult with
    | none => simp [activateQueueingMode, hq, ha, henq, hasCompletedWaypoint]
    | some f => simp [activateQueueingMode, hq, ha, henq, hasCompletedWaypoint]
  refine ⟨hc, by simp [hasCompletedWaypointCall, hc], ?_, ?_, ?_⟩
  · rw [hgc]; exact hact.1
  · rw [hgc]; exact hact.2.1
  · rw [hgc]
    simp [getCurrentWaypoint, hact.2.2]

/-- Witness for C1 (amended), on the approaching fixture. -/
theorem C1_witness :
    hasCompletedWaypoint approachState = true ∧
    hasCompletedWaypointCall approachState = (true, approachState) ∧
    (getCurrentWaypoint approachState).2.status = Status.Queued ∧
    (getCurrentWaypoint approachState).2.enqueueCount = approachState.enqueueCount + 1 ∧
    getCurrentWaypoint ((getCurrentWaypoint approachState).2) =
      ((getCurrentWaypoint approachState).2.currentWaypoint,
        (getCurrentWaypoint approachState).2) :=
  C1_amended_nextQuery approachState agentA emptyQueue rfl rfl rfl
    (by norm_num [hasReachedQueueEnd, approachState, agentA, emptyQueue, Tvector.sqLength, Tvector.sub_def])

/-- Counterexample to C2: after the pass-permission event carrying the
controlled agent's own id, the phase is `MayPass`, yet a later
followed-agent position event still delivers new geometry to the target —
the `positionChanged` connection is never removed in the own-id branch. -/
theorem C2_counterexample :
    (dispatch (Event.agentMayPass 1) queuedState).status = Status.MayPass ∧
    (dispatch (Event.followedPositionChanged 0 20)
        (dispatch (Event.agentMayPass 1) queuedState)).currentWaypoint ≠
      (dispatch (Event.agentMayPass 1) queuedState).currentWaypoint := by
  norm_num [dispatch, onAgentMayPassQueue, onFollowedAgentPositionChanged,
    queuedState, agentA, agentB, busyQueue, waypointW, addPrivateSpace,
    Tvector.sqLength, Tvector.sub_def]

/-- C2 (amended): after a pass-permission event carrying the controlled
agent's own id, the phase is `MayPass`, `hasCompletedDestination()` is true,
the existing target (and every other field except phase and the queue
subscription) is left as-is, and no further QUEUE event (pass-permission or
end-position-changed) is delivered; a live followed-agent subscription,
however, survives and its position events can still move the target (see
the counterexample). -/
theorem C2_amended_ownMayPass (s : Planner) (a : Agent) (q : WaitingQueue)
    (ha : s.agent = some a) (hq : s.waitingQueue = some q)
    (hsub : s.subQueue = true) :
    dispatch (Event.agentMayPass a.id) s =
      { s with status := Status.MayPass, subQueue := false } ∧
    hasCompletedDestination (dispatch (Event.agentMayPass a.id) s) = true ∧
    (∀ i, dispatch (Event.agentMayPass i)
        (dispatch (Event.agentMayPass a.id) s) =
      dispatch (Event.agentMayPass a.id) s) ∧
    (∀ x y : ℚ, dispatch (Event.queueEndPositionChanged x y)
        (dispatch (Event.agentMayPass a.id) s) =
      dispatch (Event.agentMayPass a.id) s) := by
  have hmain : dispatch (Event.agentMayPass a.id) s =
      { s with status := Status.MayPass, subQueue := false } := by
    simp [dispatch, hsub, onAgentMayPassQueue, ha]
  refine ⟨hmain, ?_, ?_, ?_⟩
  · rw [hmain]; simp [hasCompletedDestination, hq]
  · intro i; rw [hmain]; simp [dispatch]
  · intro x y; rw [hmain]; simp [dispatch]

/-- Witness for C2 (amended), on the queued fixture. -/
theorem C2_witness :
    dispatch (Event.agentMayPass agentA.id) queuedState =
      { queuedState with status := Status.MayPass, subQueue := false } ∧
    hasCompletedDestination (dispatch (Event.agentMayPass agentA.id) queuedState) = true ∧
    (∀ i, dispatch (Event.agentMayPass i)
        (dispatch (Event.agentMayPass agentA.id) queuedState) =
      dispatch (Event.agentMayPass agentA.id) queuedState) ∧
    (∀ x y : ℚ, dispatch (Event.queueEndPositionChanged x y)
        (dispatch (Event.agentMayPass agentA.id) queuedState) =
      dispatch (Event.agentMayPass agentA.id) queuedState) :=
  C2_amended_ownMayPass queuedState agentA busyQueue rfl rfl rfl

/-- Counterexample to C3: immediately after `setWaitingQueue` with a
non-null queue the phase is `Approaching` but NO target exists — the
waypoint is created lazily by the first `getCurrentWaypoint()` query. -/
theorem C3_counterexample :
    (setWaitingQueue (some emptyQueue) initialPlanner).status = Status.Approaching ∧
    (setWaitingQueue (some emptyQueue) initialPlanner).currentWaypoint = none :=
  ⟨rfl, rfl⟩

/-- C3 (amended): immediately after `setWaitingQueue(q)` with `q` non-null
the phase is `Approaching` and the target is null; the first
`getCurrentWaypoint()` query afterwards (agent bound, still beyond the
arrival radius) creates the target exactly at `q`'s end position, with no
personal-space displacement regardless of whether `q` is empty. -/
theorem C3_amended_assignQueue (s : Planner) (q : WaitingQueue) (a : Agent)
    (ha : s.agent = some a)
    (hfar : ¬ (q.queueEndPosition - a.position).sqLength ≤ 4) :
    (setWaitingQueue (some q) s).status = Status.Approaching ∧
    (setWaitingQueue (some q) s).currentWaypoint = none ∧
    (getCurrentWaypoint (setWaitingQueue (some q) s)).1 =
      some ⟨createWaypointName a q, q.queueEndPosition⟩ ∧
    (getCurrentWaypoint (setWaitingQueue (some q) s)).2.currentWaypoint =
      some ⟨createWaypointName a q, q.queueEndPosition⟩ := by
  refine ⟨rfl, rfl, ?_, ?_⟩ <;>
    simp [setWaitingQueue, reset, getCurrentWaypoint, hasCompletedWaypoint,
      getNextWaypoint, hasReachedQueueEnd, activateApproachingMode, ha, hfar]

/-- Witness for C3 (amended): assigning the busy queue to a planner whose
agent stands at (0, 100), far from the queue end (0, 10). -/
theorem C3_witness :
    (setWaitingQueue (some busyQueue) { initialPlanner with agent := some agentFar }).status =
      Status.Approaching ∧
    (setWaitingQueue (some busyQueue)
        { initialPlanner with agent := some agentFar }).currentWaypoint = none ∧
    (getCurrentWaypoint (setWaitingQueue (some busyQueue)
        { initialPlanner with agent := some agentFar })).1 =
      some ⟨createWaypointName agentFar busyQueue, busyQueue.queueEndPosition⟩ ∧
    (getCurrentWaypoint (setWaitingQueue (some busyQueue)
        { initialPlanner with agent := some agentFar })).2.currentWaypoint =
      some ⟨createWaypointName agentFar busyQueue, busyQueue.queueEndPosition⟩ :=
  C3_amended_assignQueue { initialPlanner with agent := some agentFar } busyQueue agentFar
    rfl (by norm_num [busyQueue, agentFar, Tvector.sqLength, Tvector.sub_def])

/-- C4: after `activateQueueingMode` with agent and queue assigned the phase
is `Queued`; if the queue's enqueue returned an agent ahead, `followedAgent`
is that agent and the new target sits at that agent's position minus the
personal-space offset, otherwise the new target sits at the queue's anchor
position; the agent's Social, Random, GroupCoherence and GroupGaze forces
are disabled.  The final conjunct checks §8's example: anchor (0,0), end
(0,10), agent at (0,10.5), empty queue — the first query yields target
(0,0). -/
theorem C4_activateQueueing (s : Planner) (a : Agent) (q : WaitingQueue)
    (ha : s.agent = some a) (hq : s.waitingQueue = some q) :
    (activateQueueingMode s).status = Status.Queued ∧
    (activateQueueingMode s).followedAgent = q.enqueueResult ∧
    (∀ f, q.enqueueResult = some f →
      (activateQueueingMode s).currentWaypoint =
        some ⟨createWaypointName a q, addPrivateSpace q f.position⟩) ∧
    (q.enqueueResult = none →
      (activateQueueingMode s).currentWaypoint =
        some ⟨createWaypointName a q, q.position⟩) ∧
    (∀ n, n ∈ ["Social", "Random", "GroupCoherence", "GroupGaze"] →
      ∃ a2, (activateQueueingMode s).agent = some a2 ∧ n ∈ a2.disabledForces) ∧
    (run [Op.setAgent (some agentA), Op.setWaitingQueue (some emptyQueue),
        Op.getCurrentWaypoint]).currentWaypoint =
      some ⟨createWaypointName agentA emptyQueue, ⟨0, 0⟩⟩ ∧
    (run [Op.setAgent (some agentA), Op.setWaitingQueue (some emptyQueue),
        Op.getCurrentWaypoint]).status = Status.Queued := by
  have hex : (run [Op.setAgent (some agentA), Op.setWaitingQueue (some emptyQueue),
      Op.getCurrentWaypoint]).currentWaypoint =
        some ⟨createWaypointName agentA emptyQueue, ⟨0, 0⟩⟩ ∧
      (run [Op.setAgent (some agentA), Op.setWaitingQueue (some emptyQueue),
        Op.getCurrentWaypoint]).status = Status.Queued := by
    norm_num [run, step, setAgent, setWaitingQueue, reset, initialPlanner,
      getCurrentWaypoint, hasCompletedWaypoint, getNextWaypoint, hasReachedQueueEnd,
      activateQueueingMode, emptyQueue, agentA, Tvector.sqLength, Tvector.sub_def]
  cases henq : q.enqueueResult with
  | none =>
    refine ⟨?_, ?_, ?_, ?_, ?_, hex.1, hex.2⟩ <;>
      simp [activateQueueingMode, ha, hq, henq, Agent.disableForce]
  | some f =>
    refine ⟨?_, ?_, ?_, ?_, ?_, hex.1, hex.2⟩ <;>
      simp [activateQueueingMode, ha, hq, henq, Agent.disableForce]

/-- Witness for C4: a planner with the busy queue (whose enqueue returns
agent 2 ahead) and agent 1 bound. -/
theorem C4_witness :
    (activateQueueingMode queuedState).status = Status.Queued ∧
    (activateQueueingMode queuedState).followedAgent = busyQueue.enqueueResult ∧
    (∀ f, busyQueue.enqueueResult = some f →
      (activateQueueingMode queuedState).currentWaypoint =
        some ⟨createWaypointName agentA busyQueue, addPrivateSpace busyQueue f.position⟩) ∧
    (busyQueue.enqueueResult = none →
      (activateQueueingMode queuedState).currentWaypoint =
        some ⟨createWaypointName agentA busyQueue, busyQueue.position⟩) ∧
    (∀ n, n ∈ ["Social", "Random", "GroupCoherence", "GroupGaze"] →
      ∃ a2, (activateQueueingMode queuedState).agent = some a2 ∧ n ∈ a2.disabledForces) ∧
    (run [Op.setAgent (some agentA), Op.setWaitingQueue (some emptyQueue),
        Op.getCurrentWaypoint]).currentWaypoint =
      some ⟨createWaypointName agentA emptyQueue, ⟨0, 0⟩⟩ ∧
    (run [Op.setAgent (some agentA), Op.setWaitingQueue (some emptyQueue),
        Op.getCurrentWaypoint]).status = Status.Queued :=
  C4_activateQueueing queuedState agentA busyQueue rfl rfl

/-- C5: for every followed-agent position event with payload (x, y) received
while a target exists, with candidate = (x, y) minus the personal-space
offset (0.7 along the queue's orientation): if the distance between the
candidate and the current target position is strictly below 0.4 (squared:
4/25), the planner is left unchanged; otherwise only the target's position
becomes the candidate. -/
theorem C5_followedAgentUpdate (x y : ℚ) (s : Planner) (wp : QueueingWaypoint)
    (q : WaitingQueue) (hwp : s.currentWaypoint = some wp)
    (hq : s.waitingQueue = some q) :
    ((addPrivateSpace q ⟨x, y⟩ - wp.position).sqLength < 4/25 →
      onFollowedAgentPositionChanged x y s = s) ∧
    (¬ (addPrivateSpace q ⟨x, y⟩ - wp.position).sqLength < 4/25 →
      onFollowedAgentPositionChanged x y s =
        { s with
          currentWaypoint := some { wp with position := addPrivateSpace q ⟨x, y⟩ } }) := by
  constructor
  · intro h
    simp only [onFollowedAgentPositionChanged, hwp, hq, if_pos h]
  · intro h
    simp only [onFollowedAgentPositionChanged, hwp, hq, if_neg h]

/-- Witness for C5: a large move of the followed agent (to (0, 20)) updates
the queued fixture's target. -/
theorem C5_witness :
    ((addPrivateSpace busyQueue ⟨0, 20⟩ - waypointW.position).sqLength < 4/25 →
      onFollowedAgentPositionChanged 0 20 queuedState = queuedState) ∧
    (¬ (addPrivateSpace busyQueue ⟨0, 20⟩ - waypointW.position).sqLength < 4/25 →
      onFollowedAgentPositionChanged 0 20 queuedState =
        { queuedState with
          currentWaypoint := some { waypointW with position := addPrivateSpace busyQueue ⟨0, 20⟩ } }) :=
  C5_followedAgentUpdate 0 20 queuedState waypointW busyQueue rfl rfl

/-- C6: while `Queued` with a followed agent bound, a pass-permission event
carrying the followed agent's id (not the controlled agent's own) snaps the
target's position to the queue's anchor, drops the followed-agent
subscription (so later position events from it have no effect) and does not
search for a new followed agent; phase and queue subscription persist. -/
theorem C6_followedMayPass (s : Planner) (a f : Agent) (q : WaitingQueue)
    (wp : QueueingWaypoint)
    (hst : s.status = Status.Queued)
    (ha : s.agent = some a) (hf : s.followedAgent = some f)
    (hq : s.waitingQueue = some q) (hwp : s.currentWaypoint = some wp)
    (hsub : s.subQueue = true)
    (hid : f.id ≠ a.id) :
    dispatch (Event.agentMayPass f.id) s =
      { s with subFollowed := false,
               currentWaypoint := some { wp with position := q.position } } ∧
    (dispatch (Event.agentMayPass f.id) s).followedAgent = some f ∧
    (dispatch (Event.agentMayPass f.id) s).status = Status.Queued ∧
    (∀ x y : ℚ,
      dispatch (Event.followedPositionChanged x y)
          (dispatch (Event.agentMayPass f.id) s) =
        dispatch (Event.agentMayPass f.id) s) := by
  have hmain : dispatch (Event.agentMayPass f.id) s =
      { s with subFollowed := false,
               currentWaypoint := some { wp with position := q.position } } := by
    simp [dispatch, hsub, onAgentMayPassQueue, ha, hf, hid,
      onFollowedAgentLeftQueue, hq, hwp]
  refine ⟨hmain, ?_, ?_, ?_⟩
  · rw [hmain]; exact hf
  · rw [hmain]; exact hst
  · intro x y
    rw [hmain]
    simp [dispatch]

/-- Witness for C6: pass permission for followed agent 2 in the queued
fixture snaps the target to the anchor (0, 0). -/
theorem C6_witness :
    dispatch (Event.agentMayPass agentB.id) queuedState =
      { queuedState with subFollowed := false,
                         currentWaypoint := some { waypointW with position := busyQueue.position } } ∧
    (dispatch (Event.agentMayPass agentB.id) queuedState).followedAgent = some agentB ∧
    (dispatch (Event.agentMayPass agentB.id) queuedState).status = Status.Queued ∧
    (∀ x y : ℚ,
      dispatch (Event.followedPositionChanged x y)
          (dispatch (Event.agentMayPass agentB.id) queuedState) =
        dispatch (Event.agentMayPass agentB.id) queuedState) :=
  C6_followedMayPass queuedState agentA agentB busyQueue waypointW
    rfl rfl rfl rfl rfl rfl (by decide)

/-- Helper for the reachability invariant: a completed waypoint in `Queued`
phase can only mean the waypoint is null. -/
lemma completed_queued_no_wp (s : Planner) (hc : hasCompletedWaypoint s = true)
    (hq : s.status = Status.Queued) : s.currentWaypoint = none := by
  cases hwp : s.currentWaypoint with
  | none => rfl
  | some wp => simp [hasCompletedWaypoint, hwp, hq] at hc

/-- Helper: `onFollowedAgentLeftQueue` preserves the queued-target invariant. -/
lemma onFollowedAgentLeftQueue_preserves (s : Planner)
    (ih : s.status = Status.Queued → s.currentWaypoint ≠ none) :
    (onFollowedAgentLeftQueue s).status = Status.Queued →
      (onFollowedAgentLeftQueue s).currentWaypoint ≠ none := by
  cases hq0 : s.waitingQueue with
  | some q =>
    cases hwp : s.currentWaypoint with
    | some wp => simp [onFollowedAgentLeftQueue, hq0, hwp]
    | none =>
      intro h2
      have hsq : s.status = Status.Queued := by
        simpa [onFollowedAgentLeftQueue, hq0, hwp] using h2
      exact absurd hwp (ih hsq)
  | none =>
    cases hwp : s.currentWaypoint with
    | some wp => simp [onFollowedAgentLeftQueue, hq0, hwp]
    | none =>
      intro h2
      have hsq : s.status = Status.Queued := by
        simpa [onFollowedAgentLeftQueue, hq0, hwp] using h2
      exact absurd hwp (ih hsq)

/-- Helper: `onAgentMayPassQueue` preserves the queued-target invariant. -/
lemma onAgentMayPassQueue_preserves (i : Int) (s : Planner)
    (ih : s.status = Status.Queued → s.currentWaypoint ≠ none) :
    (onAgentMayPassQueue i s).status = Status.Queued →
      (onAgentMayPassQueue i s).currentWaypoint ≠ none := by
  by_cases hown : (match s.agent with | some a => i == a.id | none => false) = true
  · simp [onAgentMayPassQueue, hown]
  · by_cases hfol : (match s.followedAgent with | some f => i == f.id | none => false) = true
    · have := onFollowedAgentLeftQueue_preserves s ih
      simpa [onAgentMayPassQueue, hown, hfol] using this
    · simpa [onAgentMayPassQueue, hown, hfol] using ih

/-- Helper: `activateQueueingMode` preserves the queued-target invariant
(and establishes it when agent and queue are present). -/
lemma activateQueueingMode_preserves (s : Planner)
    (ih : s.status = Status.Queued → s.currentWaypoint ≠ none) :
    (activateQueueingMode s).status = Status.Queued →
      (activateQueueingMode s).currentWaypoint ≠ none := by
  cases hq0 : s.waitingQueue with
  | none => simpa [activateQueueingMode, hq0] using ih
  | some q =>
    cases ha : s.agent with
    | none => simpa [activateQueueingMode, hq0, ha] using ih
    | some a =>
      cases henq : q.enqueueResult with
      | none => simp [activateQueueingMode, hq0, ha, henq]
      | some f => simp [activateQueueingMode, hq0, ha, henq]

/-- Helper: `onQueueEndPositionChanged` preserves the queued-target
invariant. -/
lemma onQueueEndPositionChanged_preserves (x y : ℚ) (s : Planner)
    (ih : s.status = Status.Queued → s.currentWaypoint ≠ none) :
    (onQueueEndPositionChanged x y s).status = Status.Queued →
      (onQueueEndPositionChanged x y s).currentWaypoint ≠ none := by
  by_cases hst : s.status = Status.Approaching
  · by_cases hre : hasReachedQueueEnd s = true
    · have := activateQueueingMode_preserves s ih
      simpa [onQueueEndPositionChanged, hst, hre] using this
    · cases hwp : s.currentWaypoint with
      | none => simp [onQueueEndPositionChanged, hst, hre, hwp]
      | some wp =>
        cases hq0 : s.waitingQueue with
        | none => simp [onQueueEndPositionChanged, hst, hre, hwp, hq0]
        | some q => simp [onQueueEndPositionChanged, hst, hre, hwp, hq0]
  · simpa [onQueueEndPositionChanged, hst] using ih

/-- Helper: `onFollowedAgentPositionChanged` preserves the queued-target
invariant. -/
lemma onFollowedAgentPositionChanged_preserves (x y : ℚ) (s : Planner)
    (ih : s.status = Status.Queued → s.currentWaypoint ≠ none) :
    (onFollowedAgentPositionChanged x y s).status = Status.Queued →
      (onFollowedAgentPositionChanged x y s).currentWaypoint ≠ none := by
  cases hwp : s.currentWaypoint with
  | none => simpa [onFollowedAgentPositionChanged, hwp] using ih
  | some wp =>
    cases hq0 : s.waitingQueue with
    | none => simp [onFollowedAgentPositionChanged, hwp, hq0]
    | some q =>
      by_cases hlt : (addPrivateSpace q ⟨x, y⟩ - wp.position).sqLength < 4/25
      · simp [onFollowedAgentPositionChanged, hwp, hq0, hlt]
      · simp [onFollowedAgentPositionChanged, hwp, hq0, hlt]

/-- Helper: `getNextWaypoint` preserves the queued-target invariant. -/
lemma getNextWaypoint_preserves (s : Planner)
    (ih : s.status = Status.Queued → s.currentWaypoint ≠ none) :
    (getNextWaypoint s).2.status = Status.Queued →
      (getNextWaypoint s).2.currentWaypoint ≠ none := by
  cases ha : s.agent with
  | none => simpa [getNextWaypoint, ha] using ih
  | some a =>
    cases hq0 : s.waitingQueue with
    | none => simpa [getNextWaypoint, ha, hq0] using ih
    | some q =>
      cases hre : hasReachedQueueEnd s with
      | true =>
        have := activateQueueingMode_preserves s ih
        simpa [getNextWaypoint, ha, hq0, hre] using this
      | false =>
        simp [getNextWaypoint, ha, hq0, hre, activateApproachingMode]

/-- Helper: `getCurrentWaypoint` preserves the queued-target invariant. -/
lemma getCurrentWaypoint_preserves (s : Planner)
    (ih : s.status = Status.Queued → s.currentWaypoint ≠ none) :
    (getCurrentWaypoint s).2.status = Status.Queued →
      (getCurrentWaypoint s).2.currentWaypoint ≠ none := by
  by_cases hc : hasCompletedWaypoint s = true
  · cases ha : s.agent with
    | none =>
      intro h2
      have hsq : s.status = Status.Queued := by
        simpa [getCurrentWaypoint, hc, getNextWaypoint, ha] using h2
      exact absurd (completed_queued_no_wp s hc hsq) (ih hsq)
    | some a =>
      cases hq0 : s.waitingQueue with
      | none =>
        intro h2
        have hsq : s.status = Status.Queued := by
          simpa [getCurrentWaypoint, hc, getNextWaypoint, ha, hq0] using h2
        exact absurd (completed_queued_no_wp s hc hsq) (ih hsq)
      | some q =>
        cases hre : hasReachedQueueEnd s with
        | true =>
          cases henq : q.enqueueResult with
          | none =>
            simp [getCurrentWaypoint, hc, getNextWaypoint, ha, hq0, hre,
              activateQueueingMode, henq]
          | some f =>
            simp [getCurrentWaypoint, hc, getNextWaypoint, ha, hq0, hre,
              activateQueueingMode, henq]
        | false =>
          simp [getCurrentWaypoint, hc, getNextWaypoint, ha, hq0, hre,
            activateApproachingMode]
  · simpa [getCurrentWaypoint, hc] using ih

/-- Helper: every operation preserves the queued-target invariant. -/
lemma step_preserves_queued_target (s : Planner) (op : Op)
    (ih : s.status = Status.Queued → s.currentWaypoint ≠ none) :
    (step s op).status = Status.Queued → (step s op).currentWaypoint ≠ none := by
  cases op with
  | setAgent a => simpa [step, setAgent] using ih
  | setDestination w =>
    cases w with
    | queue q => simp [step, setDestination, setWaitingQueue, reset]
    | plain n p => simpa [step, setDestination] using ih
    | null => simpa [step, setDestination] using ih
  | setWaitingQueue q =>
    cases q with
    | none => simp [step, setWaitingQueue, reset]
    | some q0 => simp [step, setWaitingQueue, reset]
  | getCurrentWaypoint =>
    have := getCurrentWaypoint_preserves s ih
    simpa [step] using this
  | getNextWaypoint =>
    have := getNextWaypoint_preserves s ih
    simpa [step] using this
  | hasCompletedWaypoint => simpa [step, hasCompletedWaypointCall] using ih
  | reset => simp [step, reset]
  | deliver e =>
    cases e with
    | agentMayPass i =>
      by_cases hsub : s.subQueue = true
      · have := onAgentMayPassQueue_preserves i s ih
        simpa [step, dispatch, hsub] using this
      · simpa [step, dispatch, hsub] using ih
    | queueEndPositionChanged x y =>
      by_cases hsub : s.subQueue = true
      · have := onQueueEndPositionChanged_preserves x y s ih
        simpa [step, dispatch, hsub] using this
      · simpa [step, dispatch, hsub] using ih
    | followedPositionChanged x y =>
      by_cases hsub : s.subFollowed = true
      · have := onFollowedAgentPositionChanged_preserves x y s ih
        simpa [step, dispatch, hsub] using this
      · simpa [step, dispatch, hsub] using ih

/-- Counterexample to C7: the state reached from a fresh planner by a single
`setWaitingQueue` with a non-null queue is in phase `Approaching` with a
null target, refuting "target non-null whenever phase ∈ {Approaching,
Queued}". -/
theorem C7_counterexample :
    ∃ s : Planner, Reachable s ∧ s.status = Status.Approaching ∧
      s.currentWaypoint = none :=
  ⟨step initialPlanner (Op.setWaitingQueue (some emptyQueue)),
    Reachable.step (Op.setWaitingQueue (some emptyQueue)) Reachable.init, rfl, rfl⟩

/-- C7 (amended): in every reachable state the target is non-null whenever
the phase is `Queued`; in `Approaching` the target may be null (between
`setWaitingQueue` and the first `getCurrentWaypoint` query). -/
theorem C7_amended_invariant (s : Planner) (h : Reachable s) :
    s.status = Status.Queued → s.currentWaypoint ≠ none := by
  induction h with
  | init => simp [initialPlanner]
  | step op hs ih => exact step_preserves_queued_target _ op ih

/-- Witness for C7 (amended): the reachable state of §8's example (agent set,
queue set, one query) is `Queued` and indeed has a target. -/
theorem C7_witness :
    (run [Op.setAgent (some agentA), Op.setWaitingQueue (some emptyQueue),
      Op.getCurrentWaypoint]).currentWaypoint ≠ none :=
  C7_amended_invariant _
    (Reachable.step Op.getCurrentWaypoint
      (Reachable.step (Op.setWaitingQueue (some emptyQueue))
        (Reachable.step (Op.setAgent (some agentA)) Reachable.init)))
    (by norm_num [run, step, setAgent, setWaitingQueue, reset, initialPlanner,
      getCurrentWaypoint, hasCompletedWaypoint, getNextWaypoint, hasReachedQueueEnd,
      activateQueueingMode, emptyQueue, agentA, Tvector.sqLength, Tvector.sub_def])

/-- C10: for every cluster with `count = n ≥ 0`, `dissolve` returns exactly
`n` newly created agents; each carries the cluster's agent type and its full
waypoint list in order, and when the distribution's width and height are
both zero, each agent's position equals the cluster's position exactly. -/
theorem C10_dissolve (c : AgentCluster) (randomX randomY : Nat → ℚ)
    (hn : 0 ≤ c.count) :
    ((AgentCluster.dissolve c randomX randomY).length : Int) = c.count ∧
    ∀ a ∈ AgentCluster.dissolve c randomX randomY,
      a.agentType = c.agentType ∧ a.waypoints = c.waypoints ∧
      (c.distribution.width = 0 → c.distribution.height = 0 →
        a.position = c.position) := by
  constructor
  · simp [AgentCluster.dissolve, Int.toNat_of_nonneg hn]
  · intro a ha
    simp only [AgentCluster.dissolve, List.mem_map, List.mem_range] at ha
    obtain ⟨i, -, rfl⟩ := ha
    refine ⟨rfl, rfl, fun hw hh => ?_⟩
    simp [hw, hh]

/-- Witness for C10: a cluster of three agents at (1,2) with a zero
distribution. -/
theorem C10_witness :
    ((AgentCluster.dissolve ⟨7, ⟨1, 2⟩, 3, ⟨0, 0⟩, 4, [10, 11]⟩
        (fun _ => 0) (fun _ => 0)).length : Int) = 3 ∧
    ∀ a ∈ AgentCluster.dissolve ⟨7, ⟨1, 2⟩, 3, ⟨0, 0⟩, 4, [10, 11]⟩
        (fun _ => 0) (fun _ => 0),
      a.agentType = 4 ∧ a.waypoints = [10, 11] ∧
      ((0:ℚ) = 0 → (0:ℚ) = 0 → a.position = ⟨1, 2⟩) :=
  C10_dissolve ⟨7, ⟨1, 2⟩, 3, ⟨0, 0⟩, 4, [10, 11]⟩ (fun _ => 0) (fun _ => 0)
    (by decide)

end Pedsim
